import Mathlib

/-!
Verification of the WebSocketManager connection core of the frontend
(states, pending message queue, reconnect trigger/backoff, Send/Connect/
Disconnect lifecycle).

The Go code is shallowly embedded.  The manager struct is a Lean
structure; channels and goroutine bookkeeping are explicit fields:
`reconnectChanFull` is the occupancy of the one-slot buffered
`reconnectChan` (which `triggerReconnect` sends to and which no code
ever receives from), `doneClosed` records whether `close(done)` has
already run (a second close panics in Go, modelled by `Option`), and
`activeLoops` counts currently running `reconnectLoop` goroutines.
External nondeterminism (the dial outcome, whether a channel hand-off
beats its timeout) is passed in as explicit parameters.  The ghost
counters `loopStarts`, `triggerCalls` and `dialAttempts` only record how
often a reconnect loop was spawned, how often `triggerReconnect` was
invoked, and how often a dial was attempted; no operation reads them.
-/

namespace InnovateWS

/-- The `ConnectionState` enumeration of the manager. -/
inductive ConnectionState where
  | Disconnected
  | Connecting
  | Connected
  | Reconnecting
deriving DecidableEq

/-- The Go `error` value returned by `Send`: `nil`, the
`"send timeout"` error, or the `"not connected, message queued"` error. -/
inductive SendResult where
  | ok
  | errSendTimeout
  | errNotConnectedQueued
deriving DecidableEq

/-- The Go `error` value returned by `Connect`: `nil`, the
`"authentication failed: unauthorized"` error, or the dial error itself
(dial errors are tagged by a natural number). -/
inductive ConnectResult where
  | ok
  | errAuth
  | errDial (e : Nat)
deriving DecidableEq

/-- Outcome of `websocket.DefaultDialer.Dial` (external nondeterminism);
`unauthorized` mirrors `resp != nil && resp.StatusCode == 401`. -/
inductive DialResult where
  | ok
  | failure (e : Nat) (unauthorized : Bool)
deriving DecidableEq

/-- `queueMessage` (bounded enqueue): if `len(messageQueue) >= maxQueueSize`
the oldest entry (`messageQueue[1:]`) is removed, then the new message is
appended.  (For `maxQueueSize = 0` and an empty queue the Go slice
expression `messageQueue[1:]` would panic; the constructor always uses
1000, so that case is unreachable in the program.) -/
def queueMessage {α : Type} (maxQueueSize : Nat) (q : List α) (m : α) : List α :=
  if maxQueueSize ≤ q.length then q.tail ++ [m] else q ++ [m]

/-- Body of `flushQueue` after the queue has been snapshotted and reset:
walk the snapshot in order; `ok i` says whether the `i`-th hand-off to
`sendChan` succeeds before its 100 ms timeout.  On the first failed
hand-off the failed message is re-enqueued with `queueMessage` into the
current queue `q` and the function returns, abandoning the rest of the
snapshot.  Returns (messages handed off, queue left behind). -/
def flushRun {α : Type} (N : Nat) (ok : Nat → Bool) :
    Nat → List α → List α → List α × List α
  | _, q, [] => ([], q)
  | i, q, m :: rest =>
    if ok i then
      let r := flushRun N ok (i + 1) q rest
      (m :: r.1, r.2)
    else
      ([], queueMessage N q m)

/-- `flushQueue`: snapshot the queue, replace it by the empty queue, then
hand the snapshot over item by item as in `flushRun`. -/
def flushQueue {α : Type} (N : Nat) (ok : Nat → Bool) (msgs : List α) :
    List α × List α :=
  flushRun N ok 0 [] msgs

/-- Wrap an integer into the 64-bit two's-complement range, as Go
arithmetic on `int` / `time.Duration` does. -/
def wrap64 (x : Int) : Int :=
  (x + 2 ^ 63) % 2 ^ 64 - 2 ^ 63

/-- Go `int64(1) << k`: shifting is multiplication by `2 ^ k` with
64-bit wraparound (for `k ≥ 64` the result is `0`, which `wrap64 (2 ^ k)`
also yields since `2 ^ k % 2 ^ 64 = 0` there). -/
def goShl1 (k : Nat) : Int :=
  wrap64 (2 ^ k)

/-- The backoff delay (in nanoseconds) computed by one `reconnectLoop`
iteration for attempt number `attempt`:
`delay := baseDelay * time.Duration(1 << uint(attempt-1))` followed by
`if delay > maxDelay { delay = maxDelay }`, with `baseDelay = 1s` and
`maxDelay = 2 * time.Minute`.  The multiplication is 64-bit and wraps. -/
def reconnectDelay (attempt : Nat) : Int :=
  let baseDelay : Int := 1000000000
  let maxDelay : Int := 120 * 1000000000
  let delay := wrap64 (baseDelay * goShl1 (attempt - 1))
  if delay > maxDelay then maxDelay else delay

/-- Shallow state of a `WebSocketManager`.  Messages (`interface{}` in
Go) are represented by natural numbers; `lastError` stores the tag of
the most recent dial error, `none` for `nil`. -/
structure WSM where
  state : ConnectionState
  reconnectEnabled : Bool
  lastError : Option Nat
  reconnectAttempts : Nat
  messageQueue : List Nat
  maxQueueSize : Nat
  hasConn : Bool
  reconnectChanFull : Bool
  doneClosed : Bool
  activeLoops : Nat
  loopStarts : Nat
  triggerCalls : Nat
  dialAttempts : Nat
deriving DecidableEq

/-- `NewWebSocketManager`: fresh manager with default settings. -/
def NewWebSocketManager : WSM :=
  { state := .Disconnected
    reconnectEnabled := true
    lastError := none
    reconnectAttempts := 0
    messageQueue := []
    maxQueueSize := 1000
    hasConn := false
    reconnectChanFull := false
    doneClosed := false
    activeLoops := 0
    loopStarts := 0
    triggerCalls := 0
    dialAttempts := 0 }

/-- `updateState`: store the new state (the on-state-change callback it
may fire carries no manager state; callback emission is modelled
separately for the loops, see `updateStateCbs`). -/
def updateState (s : WSM) (st : ConnectionState) : WSM :=
  { s with state := st }

/-- `triggerReconnect`: non-blocking send on the one-slot
`reconnectChan`; if the slot is free, fill it and spawn a
`reconnectLoop` goroutine, otherwise drop the trigger.  Nothing in the
program ever receives from `reconnectChan`, so `reconnectChanFull` is
never reset.  `triggerCalls` and `loopStarts` are ghost counters. -/
def triggerReconnect (s : WSM) : WSM :=
  if s.reconnectChanFull then
    { s with triggerCalls := s.triggerCalls + 1 }
  else
    { s with reconnectChanFull := true
             activeLoops := s.activeLoops + 1
             loopStarts := s.loopStarts + 1
             triggerCalls := s.triggerCalls + 1 }

/-- `handleDisconnect`: set state to `Disconnected`, then trigger a
reconnect when reconnection is enabled. -/
def handleDisconnect (s : WSM) : WSM :=
  let s1 := updateState s .Disconnected
  if s1.reconnectEnabled then triggerReconnect s1 else s1

/-- `Connect`: set state `Connecting`, dial.  On a dial failure record
the error; on a 401 response additionally disable reconnection; either
way return to `Disconnected`.  On success store the handle, reset the
attempt counter, set `Connected`, start the I/O goroutines and flush the
pending queue (`flushOk` decides each hand-off). -/
def Connect (dial : DialResult) (flushOk : Nat → Bool) (s : WSM) :
    WSM × ConnectResult :=
  let s1 := updateState s .Connecting
  let s2 := { s1 with dialAttempts := s1.dialAttempts + 1 }
  match dial with
  | .failure e unauthorized =>
    let s3 := { s2 with lastError := some e }
    if unauthorized then
      (updateState { s3 with reconnectEnabled := false } .Disconnected, .errAuth)
    else
      (updateState s3 .Disconnected, .errDial e)
  | .ok =>
    let s3 := { s2 with hasConn := true, reconnectAttempts := 0 }
    let s4 := updateState s3 .Connected
    let fr := flushQueue s4.maxQueueSize flushOk s4.messageQueue
    ({ s4 with messageQueue := fr.2 }, .ok)

/-- `Disconnect`: disable reconnection, `close(done)` (panics — `none` —
when `done` is already closed), close the transport handle if present,
force state `Disconnected`. -/
def Disconnect (s : WSM) : Option WSM :=
  let s1 := { s with reconnectEnabled := false }
  if s1.doneClosed then
    none
  else
    some (updateState { s1 with doneClosed := true } .Disconnected)

/-- `Send`: when `Connected`, try the bounded hand-off to `sendChan`
(`handOff` says whether it beats the 5 s timeout) and return `nil` or
the send-timeout error.  Otherwise enqueue the message, trigger a
reconnect when `Disconnected` with reconnection enabled, and return the
queued-not-connected error. -/
def Send (handOff : Bool) (m : Nat) (s : WSM) : WSM × SendResult :=
  if s.state = .Connected then
    if handOff then (s, .ok) else (s, .errSendTimeout)
  else
    let s1 := { s with messageQueue := queueMessage s.maxQueueSize s.messageQueue m }
    if s1.state = .Disconnected ∧ s1.reconnectEnabled = true then
      (triggerReconnect s1, .errNotConnectedQueued)
    else
      (s1, .errNotConnectedQueued)

/-- `EnableReconnect`: store the flag; enabling while `Disconnected`
immediately triggers a reconnect. -/
def EnableReconnect (enable : Bool) (s : WSM) : WSM :=
  let s1 := { s with reconnectEnabled := enable }
  if enable ∧ s1.state = .Disconnected then triggerReconnect s1 else s1

/-- `GetState` accessor. -/
def GetState (s : WSM) : ConnectionState :=
  s.state

/-- `GetLastError` accessor. -/
def GetLastError (s : WSM) : Option Nat :=
  s.lastError

/-- `GetQueueSize` accessor. -/
def GetQueueSize (s : WSM) : Nat :=
  s.messageQueue.length

/-- `GetReconnectAttempts` accessor. -/
def GetReconnectAttempts (s : WSM) : Nat :=
  s.reconnectAttempts

/-- Callback invocations observable by the embedding (the three
callbacks set by `SetCallbacks`; they are assumed registered). -/
inductive Cb where
  | stateChange (st : ConnectionState)
  | message (m : Nat)
  | errorCb (e : Nat)
deriving DecidableEq

/-- Whether a callback event is an on-error callback invocation. -/
def Cb.isErrorCb : Cb → Bool
  | .errorCb _ => true
  | _ => false

/-- The callback emitted by `updateState`: the on-state-change callback
fires exactly when the state actually changes. -/
def updateStateCbs (s : WSM) (st : ConnectionState) : List Cb :=
  if s.state ≠ st then [.stateChange st] else []

/-- The `readLoop` error path: `ReadMessage` returned error `e`; the
loop logs it (for unexpected closes) and returns, whereupon the deferred
calls close the handle and run `handleDisconnect`.  Returns the new
manager state and the callbacks invoked. -/
def readLoopOnError (e : Nat) (s : WSM) : WSM × List Cb :=
  (handleDisconnect s, updateStateCbs s .Disconnected)

/-- The `writeLoop` error path: a write error is logged and the loop
returns; no state is changed and no callback is invoked. -/
def writeLoopOnError (e : Nat) (s : WSM) : WSM × List Cb :=
  (s, [])

/-- First action of a spawned `reconnectLoop` goroutine: set state to
`Reconnecting` (done unconditionally, before the enabled check). -/
def reconnectLoopStart (s : WSM) : WSM :=
  updateState s .Reconnecting

/-- One iteration of the `reconnectLoop` body: if reconnection is still
enabled, increment the attempt counter, wait out the backoff delay, and
call `Connect`; otherwise the loop makes no further attempt. -/
def reconnectLoopIter (dial : DialResult) (flushOk : Nat → Bool) (s : WSM) : WSM :=
  if s.reconnectEnabled then
    (Connect dial flushOk { s with reconnectAttempts := s.reconnectAttempts + 1 }).1
  else
    s

/-- A running `reconnectLoop` goroutine returns (after a successful
reconnect, after reconnection was disabled, or on `done`).  The slot of
`reconnectChan` is not freed: no code receives from that channel. -/
def loopExitOp (s : WSM) : WSM :=
  { s with activeLoops := s.activeLoops - 1 }

/-- Running a whole sequence of enqueues (`Send` while not connected)
against an initially empty queue. -/
def runQueue {α : Type} (N : Nat) (msgs : List α) : List α :=
  msgs.foldl (queueMessage N) []

lemma queueMessage_of_lt {α : Type} (N : Nat) (q : List α) (m : α)
    (h : q.length < N) : queueMessage N q m = q ++ [m] := by
  unfold queueMessage
  rw [if_neg (by omega)]

lemma queueMessage_of_full {α : Type} (N : Nat) (q : List α) (m : α)
    (h : N ≤ q.length) : queueMessage N q m = q.tail ++ [m] := by
  unfold queueMessage
  rw [if_pos h]

lemma foldl_queueMessage {α : Type} (N : Nat) (hN : 0 < N) (msgs : List α) :
    ∀ q : List α, q.length ≤ N →
      msgs.foldl (queueMessage N) q = (q ++ msgs).drop ((q ++ msgs).length - N) := by
  induction msgs with
  | nil =>
    intro q hq
    simp [Nat.sub_eq_zero_of_le hq]
  | cons m rest ih =>
    intro q hq
    rw [List.foldl_cons]
    rcases Nat.lt_or_ge q.length N with hlt | hge
    · rw [queueMessage_of_lt N q m hlt,
        ih (q ++ [m]) (by simpa using hlt)]
      have h2 : (q ++ [m]) ++ rest = q ++ m :: rest := by simp
      rw [h2]
    · have hql : q.length = N := le_antisymm hq hge
      cases q with
      | nil =>
        exfalso
        simp at hql
        omega
      | cons a t =>
        rw [queueMessage_of_full N (a :: t) m hge]
        have hlen2 : (t.tail ++ [m]).length ≤ N := by
          simp at hql ⊢
          omega
        have htail : (a :: t).tail = t := rfl
        rw [htail] at *
        have hlen3 : (t ++ [m]).length ≤ N := by
          simp at hql ⊢
          omega
        rw [ih (t ++ [m]) hlen3]
        have h2 : (t ++ [m]) ++ rest = t ++ m :: rest := by simp
        rw [h2]
        have h3 : (a :: t) ++ m :: rest = a :: (t ++ m :: rest) := rfl
        rw [h3]
        have h4 : (a :: (t ++ m :: rest)).length - N = ((t ++ m :: rest).length - N) + 1 := by
          simp at hql ⊢
          omega
        rw [h4, List.drop_succ_cons]

/-- Claim C2: the pending message queue is a bounded drop-oldest buffer.
`NewWebSocketManager` configures capacity 1000; a push onto a full queue
removes the oldest entry before appending; a push never grows the queue
past the capacity; any sequence of enqueues from the empty queue stays
within the capacity and, once at least `N` messages have been pushed,
leaves exactly the most recent `N` of them in their original order — in
particular 1200 enqueues with the default capacity 1000 leave the most
recent 1000 messages (the input minus its first 200) in order. -/
theorem claim_C2_queue_bounded_drop_oldest (N : Nat) (hN : 0 < N)
    (q : List Nat) (m : Nat) (msgs : List Nat) :
    NewWebSocketManager.maxQueueSize = 1000 ∧
    (q.length = N → queueMessage N q m = q.tail ++ [m]) ∧
    (q.length ≤ N → (queueMessage N q m).length ≤ N) ∧
    (runQueue N msgs).length ≤ N ∧
    (N ≤ msgs.length → runQueue N msgs = msgs.drop (msgs.length - N)) ∧
    (∀ ms : List Nat, ms.length = 1200 → runQueue 1000 ms = ms.drop 200) := by
  have hrun : ∀ (M : Nat), 0 < M → ∀ ms : List Nat,
      runQueue M ms = ms.drop (ms.length - M) := by
    intro M hM ms
    have h := foldl_queueMessage M hM ms [] (by simp)
    simpa [runQueue] using h
  refine ⟨rfl, ?_, ?_, ?_, ?_, ?_⟩
  · intro h
    exact queueMessage_of_full N q m (le_of_eq h.symm)
  · intro h
    rcases Nat.lt_or_ge q.length N with hlt | hge
    · rw [queueMessage_of_lt N q m hlt]
      simp
      omega
    · have hql : q.length = N := le_antisymm h hge
      rw [queueMessage_of_full N q m hge]
      cases q with
      | nil => simp at hql; omega
      | cons a t => simp at hql ⊢; omega
  · rw [hrun N hN msgs]
    simp
    omega
  · intro _
    exact hrun N hN msgs
  · intro ms hms
    rw [hrun 1000 (by norm_num) ms, hms]

/-- Witness for claim C2 at capacity 3: a full queue evicts its oldest
element on push, and seven enqueues leave the most recent three. -/
theorem claim_C2_witness :
    queueMessage 3 [10, 20, 30] 40 = [20, 30, 40] ∧
    runQueue 3 [1, 2, 3, 4, 5, 6, 7] = [5, 6, 7] := by
  have h := claim_C2_queue_bounded_drop_oldest 3 (by decide)
    [10, 20, 30] 40 [1, 2, 3, 4, 5, 6, 7]
  refine ⟨?_, ?_⟩
  · have h2 := h.2.1 (by decide)
    simpa using h2
  · have h5 := h.2.2.2.2.1 (by decide)
    simpa using h5

/-- Claim C3, counterexample: flush a queue `[1, 2, 3]` whose very first
hand-off times out.  The claim says the flush pushes `1` back onto the
front and leaves `[1, 2, 3]` queued for the next connection; the code
leaves only `[1]` — the remaining snapshot items `2` and `3` are lost. -/
theorem claim_C3_counterexample :
    flushQueue 1000 (fun _ => false) [(1 : Nat), 2, 3] = ([], [1]) ∧
    (flushQueue 1000 (fun _ => false) [(1 : Nat), 2, 3]).2 ≠ [1, 2, 3] := by
  constructor
  · rfl
  · decide

lemma flushRun_spec {α : Type} (N : Nat) (ok : Nat → Bool) :
    ∀ (msgs : List α) (i k : Nat) (q : List α), k ≤ msgs.length →
      (∀ j, j < k → ok (i + j) = true) →
      (k < msgs.length → ok (i + k) = false) →
      flushRun N ok i q msgs
        = (msgs.take k, ((msgs.drop k).take 1).foldl (queueMessage N) q) := by
  intro msgs
  induction msgs with
  | nil =>
    intro i k q hk _ _
    have hk0 : k = 0 := by simpa using hk
    subst hk0
    simp [flushRun]
  | cons m rest ih =>
    intro i k q hk hok hfail
    cases k with
    | zero =>
      have hko : ok i = false := by
        have := hfail (by simp)
        simpa using this
      simp [flushRun, hko]
    | succ k2 =>
      have hok0 : ok i = true := by
        have := hok 0 (Nat.succ_pos k2)
        simpa using this
      have hrec := ih (i + 1) k2 q
        (by simpa using hk)
        (by
          intro j hj
          have := hok (j + 1) (by omega)
          have harith : i + (j + 1) = i + 1 + j := by omega
          rwa [harith] at this)
        (by
          intro hlt
          have := hfail (by simpa using hlt)
          have harith : i + (k2 + 1) = i + 1 + k2 := by omega
          rwa [harith] at this)
      simp [flushRun, hok0, hrec]

/-- Claim C3, amended: `flushQueue` hands the snapshot over in FIFO
order with a per-item timeout; the successfully handed-off messages are
exactly the prefix before the first timed-out hand-off; that first
timed-out message is re-enqueued (appended at the back by
`queueMessage`, not pushed onto the front), the flush stops, and the
remaining snapshot messages are discarded — so the queue left behind
holds at most that single message.  `k` is the number of hand-offs that
succeed before the first timeout. -/
theorem claim_C3_flush_amended (N k : Nat) (ok : Nat → Bool) (msgs : List Nat)
    (hk : k ≤ msgs.length)
    (hok : ∀ j, j < k → ok j = true)
    (hfail : k < msgs.length → ok k = false) :
    flushQueue N ok msgs = (msgs.take k, (msgs.drop k).take 1) := by
  have h := flushRun_spec N ok msgs 0 k []
    hk (by simpa using hok) (by simpa using hfail)
  rw [flushQueue, h]
  rcases hdrop : msgs.drop k with - | ⟨x, xs⟩
  · simp
  · have htake : (x :: xs).take 1 = [x] := by simp
    rw [htake]
    have hqm : queueMessage N ([] : List Nat) x = [x] := by
      unfold queueMessage
      split <;> simp
    simp [hqm]

/-- Witness for claim C3 at a flush whose first two hand-offs succeed
and whose third times out: messages 10 and 20 are handed off in order,
30 stays queued, 40 is lost. -/
theorem claim_C3_witness :
    flushQueue 1000 (fun i => decide (i < 2)) [10, 20, 30, 40] = ([10, 20], [30]) := by
  have h := claim_C3_flush_amended 1000 2 (fun i => decide (i < 2)) [10, 20, 30, 40]
    (by decide) (by decide) (by decide)
  simpa using h

/-- Claim C4: the backoff delay of the reconnect loop.  For attempts
1 through 34 the computed delay (in nanoseconds) agrees with the
specified `min(baseDelay * 2 ^ (attempt - 1), maxDelay)`; but at attempt
35 the Go expression `baseDelay * time.Duration(1 << uint(attempt-1))`
overflows int64 and yields a negative delay instead of the claimed
120 s, so `time.After` fires immediately. -/
theorem claim_C4_backoff_overflow :
    (∀ n, n < 35 → 1 ≤ n →
      reconnectDelay n = min ((2 : Int) ^ (n - 1) * 1000000000) (120 * 1000000000)) ∧
    reconnectDelay 35 = -1266874889709551616 ∧
    reconnectDelay 35 ≠ 120 * 1000000000 := by
  refine ⟨?_, by decide, by decide⟩
  decide

/-- Witness for claim C4: attempt 10 lies in the well-behaved range and
its delay is the 120 s cap. -/
theorem claim_C4_witness : reconnectDelay 10 = 120 * 1000000000 := by
  have h := claim_C4_backoff_overflow.1 10 (by decide) (by decide)
  rw [h]
  decide

lemma triggerReconnect_triggerCalls (s : WSM) :
    (triggerReconnect s).triggerCalls = s.triggerCalls + 1 := by
  unfold triggerReconnect
  split <;> rfl

lemma triggerReconnect_messageQueue (s : WSM) :
    (triggerReconnect s).messageQueue = s.messageQueue := by
  unfold triggerReconnect
  split <;> rfl

lemma triggerReconnect_lastError (s : WSM) :
    (triggerReconnect s).lastError = s.lastError := by
  unfold triggerReconnect
  split <;> rfl

lemma triggerReconnect_reconnectEnabled (s : WSM) :
    (triggerReconnect s).reconnectEnabled = s.reconnectEnabled := by
  unfold triggerReconnect
  split <;> rfl

lemma triggerReconnect_loopStarts_of_full (s : WSM)
    (h : s.reconnectChanFull = true) :
    (triggerReconnect s).loopStarts = s.loopStarts := by
  unfold triggerReconnect
  rw [if_pos h]

lemma triggerReconnect_state (s : WSM) :
    (triggerReconnect s).state = s.state := by
  unfold triggerReconnect
  split <;> rfl

lemma handleDisconnect_state (s : WSM) :
    (handleDisconnect s).state = .Disconnected := by
  cases hr : s.reconnectEnabled <;> cases hc : s.reconnectChanFull <;>
    simp [handleDisconnect, updateState, triggerReconnect, hr, hc]

lemma handleDisconnect_lastError (s : WSM) :
    (handleDisconnect s).lastError = s.lastError := by
  cases hr : s.reconnectEnabled <;> cases hc : s.reconnectChanFull <;>
    simp [handleDisconnect, updateState, triggerReconnect, hr, hc]

/-- Claim C5: the three-way outcome of `Send`.  When `Connected`, a
successful hand-off returns `nil` and a timed-out one returns the
send-timeout error, in both cases leaving the manager (in particular the
pending queue) completely unchanged.  When not `Connected`, the message
is enqueued with `queueMessage`, the result is the distinct
queued-not-connected error, and `triggerReconnect` is invoked exactly
when the state is `Disconnected` and reconnection is enabled.  The three
outcomes are pairwise distinct. -/
theorem claim_C5_send_three_way (s : WSM) (m : Nat) :
    (s.state = .Connected →
      Send true m s = (s, .ok) ∧ Send false m s = (s, .errSendTimeout)) ∧
    (s.state ≠ .Connected → ∀ handOff : Bool,
      (Send handOff m s).2 = .errNotConnectedQueued ∧
      (Send handOff m s).1.messageQueue
        = queueMessage s.maxQueueSize s.messageQueue m ∧
      ((Send handOff m s).1.triggerCalls = s.triggerCalls + 1 ↔
        (s.state = .Disconnected ∧ s.reconnectEnabled = true))) ∧
    (SendResult.ok ≠ .errSendTimeout ∧ SendResult.ok ≠ .errNotConnectedQueued ∧
      SendResult.errSendTimeout ≠ .errNotConnectedQueued) := by
  refine ⟨?_, ?_, by decide, by decide, by decide⟩
  · intro h
    constructor <;> simp [Send, h]
  · intro h handOff
    by_cases htr : s.state = .Disconnected ∧ s.reconnectEnabled = true
    · refine ⟨?_, ?_, ?_⟩
      · simp [Send, h, htr]
      · simp [Send, h, htr, triggerReconnect_messageQueue]
      · simp [Send, h, htr, triggerReconnect_triggerCalls]
    · refine ⟨?_, ?_, ?_⟩
      · simp [Send, h, htr]
      · simp [Send, h, htr]
      · simp [Send, h, htr]

/-- Witness for claim C5 on a fresh (disconnected) manager: `Send`
queues the message, reports the queued-not-connected outcome, and
invokes the reconnect trigger. -/
theorem claim_C5_witness :
    (Send true 7 NewWebSocketManager).2 = .errNotConnectedQueued ∧
    (Send true 7 NewWebSocketManager).1.messageQueue = [7] ∧
    (Send true 7 NewWebSocketManager).1.triggerCalls = 1 := by
  have h := (claim_C5_send_three_way NewWebSocketManager 7).2.1 (by decide) true
  refine ⟨h.1, ?_, ?_⟩
  · rw [h.2.1]
    decide
  · rw [h.2.2.mpr (by decide)]
    decide

/-- Claim C7: `Disconnect` is stated to be idempotent, but its second
invocation executes `close(wsm.done)` on an already closed channel,
which panics in Go.  The first call does disable reconnection and force
`Disconnected`; the immediately repeated call crashes (`none`). -/
theorem claim_C7_disconnect_not_idempotent :
    (Disconnect NewWebSocketManager).map WSM.state
      = some ConnectionState.Disconnected ∧
    (Disconnect NewWebSocketManager).map WSM.reconnectEnabled = some false ∧
    (Disconnect NewWebSocketManager).map WSM.doneClosed = some true ∧
    (Disconnect NewWebSocketManager).bind Disconnect = none := by
  refine ⟨rfl, rfl, rfl, rfl⟩

/-- Claim C8, counterexample: a transient read failure on a connected
manager (error tag 7) invokes only the on-state-change callback for
`Disconnected`; the registered on-error callback is never invoked, so
the failure is not surfaced through it as the claim states. -/
theorem claim_C8_counterexample :
    (readLoopOnError 7
        { NewWebSocketManager with state := .Connected, hasConn := true }).2
      = [Cb.stateChange .Disconnected] ∧
    ((readLoopOnError 7
        { NewWebSocketManager with state := .Connected, hasConn := true }).2.any
      Cb.isErrorCb) = false := by
  refine ⟨rfl, rfl⟩

/-- Claim C8, amended: a transient read failure is surfaced only through
the state change to `Disconnected` (the on-state-change callback) — the
on-error callback is never invoked on the read-error path, a write error
changes no observable state and invokes no callback at all, and neither
path is fatal (both return normally). -/
theorem claim_C8_amended (e : Nat) (s : WSM) :
    ((readLoopOnError e s).2.any Cb.isErrorCb) = false ∧
    (readLoopOnError e s).1.state = .Disconnected ∧
    (s.state ≠ .Disconnected →
      (readLoopOnError e s).2 = [Cb.stateChange .Disconnected]) ∧
    writeLoopOnError e s = (s, []) := by
  refine ⟨?_, ?_, ?_, rfl⟩
  · show (updateStateCbs s .Disconnected).any Cb.isErrorCb = false
    unfold updateStateCbs
    split <;> simp [Cb.isErrorCb]
  · show (handleDisconnect s).state = .Disconnected
    exact handleDisconnect_state s
  · intro hs
    show updateStateCbs s .Disconnected = [Cb.stateChange .Disconnected]
    simp [updateStateCbs, hs]

/-- Witness for claim C8 on a concrete connected manager. -/
theorem claim_C8_witness :
    ((readLoopOnError 3
        { NewWebSocketManager with state := .Connected, hasConn := true }).2.any
      Cb.isErrorCb) = false ∧
    (readLoopOnError 3
        { NewWebSocketManager with state := .Connected, hasConn := true }).2
      = [Cb.stateChange .Disconnected] := by
  have h := claim_C8_amended 3
    { NewWebSocketManager with state := .Connected, hasConn := true }
  exact ⟨h.1, h.2.2.1 (by decide)⟩

/-- Claim C9, counterexample: with the manager in `Reconnecting` (the
reconnect loop is active), a `Connect` whose dial fails with a non-auth
error leaves the state `Disconnected`, not `Reconnecting` as claimed. -/
theorem claim_C9_counterexample :
    (Connect (.failure 9 false) (fun _ => true)
        { NewWebSocketManager with
            state := .Reconnecting, reconnectChanFull := true,
            activeLoops := 1 }).1.state = .Disconnected ∧
    ConnectionState.Disconnected ≠ ConnectionState.Reconnecting := by
  refine ⟨rfl, by decide⟩

/-- Claim C9, amended: the reconnect loop sets `Reconnecting` once when
it starts; every failed (non-auth) `Connect` — in particular each failed
retry iteration of the loop — passes through `Connecting` and leaves the
state `Disconnected`, so between failed retries the observable state is
`Disconnected`, not `Reconnecting`. -/
theorem claim_C9_failed_retry_state (s : WSM) (e : Nat) (flushOk : Nat → Bool) :
    (reconnectLoopStart s).state = .Reconnecting ∧
    (Connect (.failure e false) flushOk s).1.state = .Disconnected ∧
    (s.reconnectEnabled = true →
      (reconnectLoopIter (.failure e false) flushOk s).state = .Disconnected) := by
  refine ⟨rfl, rfl, ?_⟩
  intro h
  simp [reconnectLoopIter, h, Connect, updateState]

/-- Witness for claim C9: a failed retry from a fresh manager placed in
`Reconnecting` with reconnection enabled ends in `Disconnected`. -/
theorem claim_C9_witness :
    (reconnectLoopIter (.failure 9 false) (fun _ => true)
        { NewWebSocketManager with
            state := .Reconnecting, reconnectChanFull := true,
            activeLoops := 1 }).state = .Disconnected := by
  exact (claim_C9_failed_retry_state
    { NewWebSocketManager with
        state := .Reconnecting, reconnectChanFull := true, activeLoops := 1 }
    9 (fun _ => true)).2.2 rfl

/-- Claim C10: `lastError` is written only by `Connect` on a dial
failure.  A successful `Connect` (hence a successful reconnection)
leaves it untouched, a failed dial overwrites it with that dial's error,
the read-loop and write-loop error paths and `Send` never change it, a
fresh manager reports `nil`, and `EnableReconnect` and
`handleDisconnect` do not touch it either. -/
theorem claim_C10_last_error_only_dial (s : WSM) (flushOk : Nat → Bool)
    (e er m : Nat) (unauthorized handOff b : Bool) :
    GetLastError (Connect .ok flushOk s).1 = GetLastError s ∧
    GetLastError (Connect (.failure e unauthorized) flushOk s).1 = some e ∧
    GetLastError (readLoopOnError er s).1 = GetLastError s ∧
    GetLastError (writeLoopOnError er s).1 = GetLastError s ∧
    GetLastError (Send handOff m s).1 = GetLastError s ∧
    GetLastError (EnableReconnect b s) = GetLastError s ∧
    GetLastError (handleDisconnect s) = GetLastError s ∧
    GetLastError NewWebSocketManager = none := by
  have hhd : GetLastError (handleDisconnect s) = GetLastError s := by
    show (handleDisconnect s).lastError = s.lastError
    exact handleDisconnect_lastError s
  refine ⟨rfl, ?_, hhd, rfl, ?_, ?_, hhd, rfl⟩
  · cases unauthorized <;>
      simp [Connect, updateState, GetLastError]
  · show (Send handOff m s).1.lastError = s.lastError
    by_cases hSt : s.state = .Connected
    · cases handOff <;> simp [Send, hSt]
    · cases hd : decide (s.state = .Disconnected) <;>
        cases hr : s.reconnectEnabled <;>
        cases hc : s.reconnectChanFull <;>
        simp_all [Send, triggerReconnect]
  · show (EnableReconnect b s).lastError = s.lastError
    cases b <;> cases hd : decide (s.state = .Disconnected) <;>
      cases hc : s.reconnectChanFull <;>
      simp_all [EnableReconnect, triggerReconnect]

/-- External events driving the manager: API calls made by the caller
and the internally scheduled loop actions, each carrying its external
nondeterminism.  `ioError` is the read loop hitting a read error;
`writeError` is the write loop hitting a write error; `loopStart`,
`loopIter` and `loopExit` are the actions of a running reconnect-loop
goroutine. -/
inductive Event where
  | connect (dial : DialResult) (flushOk : Nat → Bool)
  | send (handOff : Bool) (m : Nat)
  | ioError (e : Nat)
  | writeError (e : Nat)
  | disconnectCall
  | enableReconnect (b : Bool)
  | loopStart
  | loopIter (dial : DialResult) (flushOk : Nat → Bool)
  | loopExit

/-- One step of the manager; `none` is a crash (panic). -/
def step (s : WSM) : Event → Option WSM
  | .connect d f => some (Connect d f s).1
  | .send h m => some (Send h m s).1
  | .ioError e => some (readLoopOnError e s).1
  | .writeError e => some (writeLoopOnError e s).1
  | .disconnectCall => Disconnect s
  | .enableReconnect b => some (EnableReconnect b s)
  | .loopStart => some (reconnectLoopStart s)
  | .loopIter d f => some (reconnectLoopIter d f s)
  | .loopExit => some (loopExitOp s)

/-- Run a sequence of events. -/
def run (s : WSM) : List Event → Option WSM
  | [] => some s
  | e :: evs => (step s e).bind fun s2 => run s2 evs

/-- The single-reconnect-loop invariant: at most one loop goroutine is
running, and none can be running while the one-slot channel is free. -/
def loopInv (s : WSM) : Prop :=
  s.activeLoops ≤ 1 ∧ (s.reconnectChanFull = false → s.activeLoops = 0)

lemma triggerReconnect_loopInv (s : WSM) (h : loopInv s) :
    loopInv (triggerReconnect s) := by
  obtain ⟨h1, h2⟩ := h
  unfold triggerReconnect
  cases hc : s.reconnectChanFull
  · rw [if_neg (by simp)]
    refine ⟨?_, fun hcf => by simp at hcf⟩
    show s.activeLoops + 1 ≤ 1
    have := h2 hc
    omega
  · rw [if_pos rfl]
    exact ⟨h1, fun hcf => by simp at hcf⟩

lemma connect_loop_frame (d : DialResult) (f : Nat → Bool) (s : WSM) :
    (Connect d f s).1.activeLoops = s.activeLoops ∧
    (Connect d f s).1.reconnectChanFull = s.reconnectChanFull ∧
    (Connect d f s).1.loopStarts = s.loopStarts := by
  cases d with
  | ok => simp [Connect, updateState]
  | failure e unauthorized =>
    cases unauthorized <;> simp [Connect, updateState]

lemma step_loopInv (s s2 : WSM) (e : Event) (h : loopInv s)
    (hs : step s e = some s2) : loopInv s2 := by
  cases e with
  | connect d f =>
    simp [step] at hs
    have hf := connect_loop_frame d f s
    subst hs
    exact ⟨hf.1 ▸ h.1, fun hc => by
      rw [hf.1]
      exact h.2 (by rw [← hf.2.1, hc])⟩
  | send handOff m =>
    simp [step] at hs
    subst hs
    by_cases hSt : s.state = .Connected
    · cases handOff <;> simpa [Send, hSt] using h
    · by_cases htr : s.state = .Disconnected ∧ s.reconnectEnabled = true
      · have h2 : loopInv { s with
          messageQueue := queueMessage s.maxQueueSize s.messageQueue m } := h
        simpa [Send, hSt, htr] using triggerReconnect_loopInv _ h2
      · simpa [Send, hSt, htr] using h
  | ioError e =>
    simp [step, readLoopOnError] at hs
    subst hs
    by_cases hr : ({ s with state := ConnectionState.Disconnected } : WSM).reconnectEnabled = true
    · have h2 : loopInv ({ s with state := ConnectionState.Disconnected } : WSM) := h
      simpa [handleDisconnect, updateState, hr] using triggerReconnect_loopInv _ h2
    · simpa [handleDisconnect, updateState, hr] using h
  | writeError e =>
    simp [step, writeLoopOnError] at hs
    subst hs
    exact h
  | disconnectCall =>
    simp [step, Disconnect] at hs
    rcases hs with ⟨hd, hs⟩
    subst hs
    exact h
  | enableReconnect b =>
    simp [step] at hs
    subst hs
    cases b with
    | false => simpa [EnableReconnect] using h
    | true =>
      by_cases hd : s.state = .Disconnected
      · have h2 : loopInv ({ s with reconnectEnabled := true } : WSM) := h
        simpa [EnableReconnect, hd] using triggerReconnect_loopInv _ h2
      · simpa [EnableReconnect, hd] using h
  | loopStart =>
    simp [step, reconnectLoopStart, updateState] at hs
    subst hs
    exact h
  | loopIter d f =>
    simp [step, reconnectLoopIter] at hs
    by_cases hr : s.reconnectEnabled = true
    · rw [if_pos hr] at hs
      subst hs
      have hf := connect_loop_frame d f
        { s with reconnectAttempts := s.reconnectAttempts + 1 }
      constructor
      · rw [hf.1]
        exact h.1
      · intro hc
        rw [hf.1]
        exact h.2 (by rw [← hf.2.1]; exact hc)
    · rw [if_neg hr] at hs
      subst hs
      exact h
  | loopExit =>
    simp [step, loopExitOp] at hs
    subst hs
    obtain ⟨h1, h2⟩ := h
    constructor
    · simp
      omega
    · intro hc
      simp at hc ⊢
      have := h2 hc
      omega

lemma run_loopInv (evs : List Event) :
    ∀ (s s2 : WSM), loopInv s → run s evs = some s2 → loopInv s2 := by
  induction evs with
  | nil =>
    intro s s2 h hr
    simp [run] at hr
    subst hr
    exact h
  | cons e rest ih =>
    intro s s2 h hr
    simp only [run] at hr
    cases hstep : step s e with
    | none =>
      rw [hstep] at hr
      simp at hr
    | some sm =>
      rw [hstep] at hr
      simp only [Option.bind_some, Option.some_bind] at hr
      exact ih sm s2 (step_loopInv s sm e h hstep) hr

/-- The demonstration trace for claim C1: connect successfully, lose the
connection (spawning the one reconnect loop), let that loop reconnect
successfully and return, then lose the connection again. -/
def staleSlotTrace : List Event :=
  [.connect .ok (fun _ => true),
   .ioError 5,
   .loopStart,
   .loopIter .ok (fun _ => true),
   .loopExit,
   .ioError 6]

/-- Claim C1: at most one reconnect loop is ever active (the one-slot
channel gate guarantees that, over every event sequence from a fresh
manager).  But the claim also demands that no qualifying transition to
`Disconnected` with reconnection enabled is left without an active loop,
and that fails: the slot of `reconnectChan` is never drained, so after
the first loop has exited, the second disconnect's trigger is dropped —
the final state of `staleSlotTrace` is `Disconnected` with reconnection
enabled, two trigger deliveries, yet no active loop and only one loop
ever started. -/
theorem claim_C1_single_loop_but_stale_slot :
    (∀ (evs : List Event) (s2 : WSM),
      run NewWebSocketManager evs = some s2 → s2.activeLoops ≤ 1) ∧
    (run NewWebSocketManager staleSlotTrace).map WSM.state
      = some ConnectionState.Disconnected ∧
    (run NewWebSocketManager staleSlotTrace).map WSM.reconnectEnabled = some true ∧
    (run NewWebSocketManager staleSlotTrace).map WSM.activeLoops = some 0 ∧
    (run NewWebSocketManager staleSlotTrace).map WSM.reconnectChanFull = some true ∧
    (run NewWebSocketManager staleSlotTrace).map WSM.triggerCalls = some 2 ∧
    (run NewWebSocketManager staleSlotTrace).map WSM.loopStarts = some 1 := by
  refine ⟨?_, rfl, rfl, rfl, rfl, rfl, rfl⟩
  intro evs s2 hr
  exact (run_loopInv evs NewWebSocketManager s2 ⟨by decide, fun _ => rfl⟩ hr).1

/-- Witness for claim C1: the empty event sequence from a fresh manager
satisfies the at-most-one-loop bound. -/
theorem claim_C1_witness : NewWebSocketManager.activeLoops ≤ 1 :=
  claim_C1_single_loop_but_stale_slot.1 [] NewWebSocketManager rfl

/-- Events that are neither a manual `Connect` call nor a re-enabling
`EnableReconnect(true)` call: `Send` calls, I/O errors, `Disconnect`,
`EnableReconnect(false)` and the actions of an already-running
reconnect-loop goroutine. -/
def Event.passive : Event → Bool
  | .connect _ _ => false
  | .enableReconnect b => !b
  | _ => true

lemma step_no_auto_reconnect (s s2 : WSM) (e : Event)
    (he : e.passive = true) (hen : s.reconnectEnabled = false)
    (hs : step s e = some s2) :
    s2.reconnectEnabled = false ∧ s2.loopStarts = s.loopStarts ∧
      s2.dialAttempts = s.dialAttempts := by
  cases e with
  | connect d f => simp [Event.passive] at he
  | send handOff m =>
    simp [step] at hs
    subst hs
    by_cases hSt : s.state = .Connected
    · cases handOff <;> simp [Send, hSt, hen]
    · simp [Send, hSt, hen]
  | ioError e =>
    simp [step, readLoopOnError] at hs
    subst hs
    simp [handleDisconnect, updateState, hen]
  | writeError e =>
    simp [step, writeLoopOnError] at hs
    subst hs
    exact ⟨hen, rfl, rfl⟩
  | disconnectCall =>
    cases hd : s.doneClosed <;> simp [step, Disconnect, updateState, hd] at hs
    subst hs
    simp
  | enableReconnect b =>
    cases b with
    | false =>
      simp [step] at hs
      subst hs
      simp [EnableReconnect]
    | true => simp [Event.passive] at he
  | loopStart =>
    simp [step, reconnectLoopStart, updateState] at hs
    subst hs
    exact ⟨hen, rfl, rfl⟩
  | loopIter d f =>
    simp [step, reconnectLoopIter, hen] at hs
    subst hs
    exact ⟨hen, rfl, rfl⟩
  | loopExit =>
    simp [step, loopExitOp] at hs
    subst hs
    exact ⟨hen, rfl, rfl⟩

lemma run_no_auto_reconnect (evs : List Event) :
    ∀ (s s2 : WSM), s.reconnectEnabled = false →
      evs.all Event.passive = true → run s evs = some s2 →
      s2.reconnectEnabled = false ∧ s2.loopStarts = s.loopStarts ∧
        s2.dialAttempts = s.dialAttempts := by
  induction evs with
  | nil =>
    intro s s2 hen _ hr
    simp [run] at hr
    subst hr
    exact ⟨hen, rfl, rfl⟩
  | cons e rest ih =>
    intro s s2 hen hall hr
    simp only [List.all_cons, Bool.and_eq_true] at hall
    simp only [run] at hr
    cases hstep : step s e with
    | none =>
      rw [hstep] at hr
      simp at hr
    | some sm =>
      rw [hstep] at hr
      simp only [Option.some_bind] at hr
      obtain ⟨h1, h2, h3⟩ := step_no_auto_reconnect s sm e hall.1 hen hstep
      obtain ⟨g1, g2, g3⟩ := ih sm s2 h1 hall.2 hr
      exact ⟨g1, by rw [g2, h2], by rw [g3, h3]⟩

/-- Claim C6: a `Connect` whose dial is rejected with 401 returns the
authentication error, permanently disables reconnection and returns the
state to `Disconnected`; afterwards, over any sequence of events that
contains no `EnableReconnect(true)` (and no manual `Connect`) — `Send`
calls, I/O errors, further `Disconnect`s, actions of a still-running
loop goroutine — no reconnect loop is ever spawned and no automatic dial
is ever attempted. -/
theorem claim_C6_auth_rejection_disables_reconnect (s : WSM)
    (flushOk : Nat → Bool) (e : Nat) (evs : List Event) (s2 : WSM) :
    (Connect (.failure e true) flushOk s).2 = .errAuth ∧
    (Connect (.failure e true) flushOk s).1.reconnectEnabled = false ∧
    (Connect (.failure e true) flushOk s).1.state = .Disconnected ∧
    (evs.all Event.passive = true →
      run (Connect (.failure e true) flushOk s).1 evs = some s2 →
      s2.loopStarts = (Connect (.failure e true) flushOk s).1.loopStarts ∧
        s2.dialAttempts = (Connect (.failure e true) flushOk s).1.dialAttempts) := by
  refine ⟨rfl, rfl, rfl, ?_⟩
  intro hall hr
  have h := run_no_auto_reconnect evs (Connect (.failure e true) flushOk s).1 s2
    rfl hall hr
  exact ⟨h.2.1, h.2.2⟩

/-- Witness for claim C6: after an authentication rejection on a fresh
manager, a queued `Send` and a read error leave the loop-start and dial
counters untouched. -/
theorem claim_C6_witness :
    (Connect (.failure 1 true) (fun _ => true) NewWebSocketManager).2
      = ConnectResult.errAuth ∧
    ({ state := .Disconnected
       reconnectEnabled := false
       lastError := some 1
       reconnectAttempts := 0
       messageQueue := [5]
       maxQueueSize := 1000
       hasConn := false
       reconnectChanFull := false
       doneClosed := false
       activeLoops := 0
       loopStarts := 0
       triggerCalls := 0
       dialAttempts := 1 } : WSM).loopStarts
      = (Connect (.failure 1 true) (fun _ => true) NewWebSocketManager).1.loopStarts := by
  have h := claim_C6_auth_rejection_disables_reconnect NewWebSocketManager
    (fun _ => true) 1 [.send true 5, .ioError 2]
    { state := .Disconnected
      reconnectEnabled := false
      lastError := some 1
      reconnectAttempts := 0
      messageQueue := [5]
      maxQueueSize := 1000
      hasConn := false
      reconnectChanFull := false
      doneClosed := false
      activeLoops := 0
      loopStarts := 0
      triggerCalls := 0
      dialAttempts := 1 }
  exact ⟨h.1, (h.2.2.2 (by decide) rfl).1⟩

end InnovateWS
